import Mathlib

/-!
Verification development for the magic_func type-erased callable library.

The definitions below are a shallow embedding of the C++ sources:
  * type_id.h                 — per-signature runtime tags (get_type_id)
  * allocator.h               — the process-wide custom allocator hook pair
  * type_erased_object.{h,hpp} — the erased storage cell (TypeErasedObject)
  * type_erased_function.{h,hpp} — the erased callable core (TypeErasedFunction)
  * function.hpp / member_function.hpp — the typed façades and their factories
  * function_cast.h           — the tag-guarded downcast

Machine addresses are modelled as natural numbers, with `Option Addr`
standing for a possibly-null pointer.  Fallible operations return
`Except Error α`; `MAGIC_FUNC_CHECK`/`MAGIC_FUNC_ERROR` become `.error e`.
Debug assertions (`MAGIC_FUNC_DCHECK`) are modelled as enabled, which is
the default build configuration (NDEBUG undefined).
Allocator traffic is made observable through lists of `AllocEvent`s.
-/

namespace MagicFunc

/-- Abstract machine addresses; a C++ `void*` is an `Option Addr` (none = null).
C++ `mf::TypeId` (an `intptr_t`) is modelled as a plain `Nat`, with the
value 0 meaning "type not set yet". -/
abbrev Addr := Nat

/-- The error enumeration of error.h. -/
inductive Error
  | invalidFunction
  | invalidObject
  | invalidCast
  | incompatibleType
  | nonCopyableObject
  | customAllocator
deriving DecidableEq

/-- Codes for atomic C++ types appearing in signatures (int, bool, ...). -/
abbrev Ty := Nat

/-- A function signature `Return(Args...)`. -/
structure FnSig where
  ret : Ty
  args : List Ty
deriving DecidableEq

/-- A member function pointer signature `Return (Class::*)(Args...) cv`,
including its const/volatile qualification, which function_traits.h treats
as part of the signature identity. -/
structure MemSig where
  cls : Nat
  isConst : Bool
  isVolatile : Bool
  fn : FnSig
deriving DecidableEq

/-- A signature a façade can be specialized for: either a plain function
type (class `Function<Return(Args...)>`) or a member function pointer type
(class `MemberFunction<MemberFuncPtr>`). -/
inductive Sig
  | fn (s : FnSig)
  | mem (m : MemSig)
deriving DecidableEq

/-- Injective encoding of argument-type lists, used to give every distinct
signature a distinct tag, mirroring one `get_type_id` instantiation per
distinct template argument pack. -/
def encodeList : List Nat → Nat
  | [] => 0
  | x :: xs => Nat.pair x (encodeList xs) + 1

def encodeFnSig (s : FnSig) : Nat := Nat.pair s.ret (encodeList s.args)

def encodeMemSig (m : MemSig) : Nat :=
  Nat.pair m.cls <| Nat.pair (cond m.isConst 1 0) <|
    Nat.pair (cond m.isVolatile 1 0) (encodeFnSig m.fn)

/-- `get_type_id<T...>()` of type_id.h: a process-local tag, one per
distinct signature, never 0.  The source derives it from the address of a
per-instantiation function or static; we model the same contract (equal
signatures give equal tags, distinct signatures give distinct non-zero
tags) with an injective encoding. -/
def get_type_id : Sig → Nat
  | .fn s => 2 * encodeFnSig s + 1
  | .mem m => 2 * encodeMemSig m + 2

theorem encodeList_injective : ∀ xs ys : List Nat,
    encodeList xs = encodeList ys → xs = ys := by
  intro xs
  induction xs with
  | nil =>
    intro ys h
    cases ys with
    | nil => rfl
    | cons y ys => simp [encodeList] at h
  | cons x xs ih =>
    intro ys h
    cases ys with
    | nil => simp [encodeList] at h
    | cons y ys =>
      simp only [encodeList, Nat.add_right_cancel_iff] at h
      obtain ⟨h1, h2⟩ := Nat.pair_eq_pair.mp h
      rw [h1, ih ys h2]

theorem encodeFnSig_injective : ∀ s t : FnSig,
    encodeFnSig s = encodeFnSig t → s = t := by
  intro ⟨r1, a1⟩ ⟨r2, a2⟩ h
  obtain ⟨h1, h2⟩ := Nat.pair_eq_pair.mp h
  simp only [FnSig.mk.injEq]
  exact ⟨h1, encodeList_injective _ _ h2⟩

theorem encodeMemSig_injective : ∀ m n : MemSig,
    encodeMemSig m = encodeMemSig n → m = n := by
  intro ⟨c1, k1, v1, f1⟩ ⟨c2, k2, v2, f2⟩ h
  obtain ⟨h1, h2⟩ := Nat.pair_eq_pair.mp h
  obtain ⟨h3, h4⟩ := Nat.pair_eq_pair.mp h2
  obtain ⟨h5, h6⟩ := Nat.pair_eq_pair.mp h4
  simp only [MemSig.mk.injEq]
  refine ⟨h1, ?_, ?_, encodeFnSig_injective _ _ h6⟩
  · cases k1 <;> cases k2 <;> simp_all
  · cases v1 <;> cases v2 <;> simp_all

/-- Distinct signatures always get distinct tags. -/
theorem get_type_id_injective : ∀ s t : Sig,
    get_type_id s = get_type_id t → s = t
  | .fn a, .fn b, h => by
    simp only [get_type_id] at h
    exact congrArg Sig.fn (encodeFnSig_injective a b (by omega))
  | .fn a, .mem b, h => by
    simp only [get_type_id] at h
    exact absurd h (by omega)
  | .mem a, .fn b, h => by
    simp only [get_type_id] at h
    exact absurd h (by omega)
  | .mem a, .mem b, h => by
    simp only [get_type_id] at h
    exact congrArg Sig.mem (encodeMemSig_injective a b (by omega))

/-- A tag produced for an actual signature is never the unset sentinel 0. -/
theorem get_type_id_ne_zero : ∀ s : Sig, get_type_id s ≠ 0 := by
  intro s
  cases s <;> simp [get_type_id]

/-- allocator.h `AllocationFunc`: size → alignment → context → allocated
address (`none` models a returned null pointer). -/
abbrev AllocationFunc := Nat → Nat → Nat → Option Addr

/-- allocator.h `DeallocationFunc`: address → size → alignment → context →
success flag. -/
abbrev DeallocationFunc := Addr → Nat → Nat → Nat → Bool

/-- The process-wide custom allocator slots, i.e. the current contents of
`CustomAllocator()` and `CustomDeallocator()` (each a function pointer
paired with its context value, or not installed). -/
structure Hooks where
  alloc : Option (AllocationFunc × Nat)
  dealloc : Option (DeallocationFunc × Nat)

/-- No custom allocator installed: the default state of the slots. -/
def noHooks : Hooks := ⟨none, none⟩

/-- Observable allocator traffic produced by the storage cell. -/
inductive AllocEvent
  | customAlloc (a : Addr)
  | defaultNew (a : Addr)
  | customDealloc (a : Addr)
  | defaultDelete (a : Addr)
deriving DecidableEq

/-- Whether an event allocates memory (as opposed to releasing it). -/
def AllocEvent.isAllocation : AllocEvent → Bool
  | .customAlloc _ => true
  | .defaultNew _ => true
  | .customDealloc _ => false
  | .defaultDelete _ => false

/-- An instance of a concrete C++ value type stored by value in a cell:
its copy-constructibility, size, alignment and an abstract payload.  All
storable types are move-constructible (StoreObject requires it). -/
structure Val where
  copyable : Bool
  size : Nat
  align : Nat
  payload : Nat
deriving DecidableEq

/-- What the cell's `data_` buffer and its three captured operation
pointers hold:
  * `noOps`  — all of `destructor_`, `copy_constructor_`,
    `move_constructor_` are null; the buffer content is irrelevant
    (empty cell or non-owning `StorePointer` mode).
  * `uniq v heap` — the buffer holds a `CustomUniquePtr<U>` owning the
    value `v` at heap address `heap`; the operations are
    `DestroyObject<CustomUniquePtr<U>>`, `CopyHeapObject<U>` (whose
    behaviour was resolved from `is_copy_constructible<U>` at store time)
    and `MoveSmartPointer<CustomUniquePtr<U>>`.
  * `shared tgt` — the buffer holds a `std::shared_ptr` whose `get()` is
    `tgt`; the operations are the shared-pointer ones. -/
inductive StoreState
  | noOps
  | uniq (v : Val) (heap : Addr)
  | shared (tgt : Option Addr)
deriving DecidableEq

/-- The erased storage cell of type_erased_object.h: the `object_ptr_`
field plus the buffer/operation state. -/
structure TypeErasedObject where
  objectPtr : Option Addr
  store : StoreState
deriving DecidableEq

/-- The state produced by the default constructor. -/
def emptyObject : TypeErasedObject := ⟨none, .noOps⟩

/-- Whether a buffer state has the operation pointers installed. -/
def StoreState.isStored : StoreState → Bool
  | .noOps => false
  | .uniq _ _ => true
  | .shared _ => true

/-- `HasStoredObject()`: true iff `destructor_ != nullptr`. -/
def TypeErasedObject.hasStoredObject (c : TypeErasedObject) : Bool :=
  c.store.isStored

/-- True iff all three erased operation pointers are null. -/
def TypeErasedObject.opsAllNull (c : TypeErasedObject) : Bool :=
  !c.store.isStored

/-- `GetObject()`: the referenced or stored object address, if any. -/
def TypeErasedObject.GetObject (c : TypeErasedObject) : Option Addr :=
  c.objectPtr

/-- Running the captured destructor operation on the buffer (the
`if (destructor_) (*destructor_)(data_);` calls).  For the owned-value
mode this runs `~CustomUniquePtr<U>`, whose `CustomAllocatorDeleter`
consults the *current* deallocator slot: a custom deallocator returning
false raises `kCustomAllocator` (type_erased_object.hpp, operator() of
CustomAllocatorDeleter); with no custom deallocator, `delete` is used.
Destroying a shared handle only drops a reference. -/
def destroyContents (hooks : Hooks) : StoreState → Except Error (List AllocEvent)
  | .noOps => .ok []
  | .uniq v heap =>
    match hooks.dealloc with
    | some (f, ctx) =>
      if f heap v.size v.align ctx then .ok [.customDealloc heap]
      else .error .customAllocator
    | none => .ok [.defaultDelete heap]
  | .shared _ => .ok []

/-- One heap allocation for an owned value, as performed by `StoreObject`
and `CopyHeapObject`: through the custom allocation slot if installed
(raising `kCustomAllocator` when it returns null — the
`MAGIC_FUNC_CHECK(heap, Error::kCustomAllocator)` line), through plain
`new` otherwise.  `σ` is the next fresh default-heap address. -/
def allocObject (hooks : Hooks) (σ : Nat) (v : Val) :
    Except Error (Addr × List AllocEvent × Nat) :=
  match hooks.alloc with
  | some (f, ctx) =>
    match f v.size v.align ctx with
    | some a => .ok (a, [.customAlloc a], σ)
    | none => .error .customAllocator
  | none => .ok (σ, [.defaultNew σ], σ + 1)

/-- `Reset()`: destroy any stored object, then clear all fields. -/
def TypeErasedObject.Reset (hooks : Hooks) (c : TypeErasedObject) :
    Except Error (TypeErasedObject × List AllocEvent) :=
  match destroyContents hooks c.store with
  | .error e => .error e
  | .ok ev => .ok (emptyObject, ev)

/-- `StorePointer(object)`: Reset, then keep only the raw address with all
operation pointers null (non-owning mode). -/
def TypeErasedObject.StorePointer (hooks : Hooks) (c : TypeErasedObject)
    (p : Option Addr) : Except Error (TypeErasedObject × List AllocEvent) :=
  match destroyContents hooks c.store with
  | .error e => .error e
  | .ok ev => .ok (⟨p, .noOps⟩, ev)

/-- `StoreObject(T&&)` (owned-value mode): Reset, allocate one `U` on the
heap (custom allocator if installed), construct the value there, keep an
owning `CustomUniquePtr<U>` in the buffer, point `object_ptr_` at the
value and install the three type-specific operations. -/
def TypeErasedObject.StoreObject (hooks : Hooks) (σ : Nat)
    (c : TypeErasedObject) (v : Val) :
    Except Error (TypeErasedObject × List AllocEvent × Nat) :=
  match destroyContents hooks c.store with
  | .error e => .error e
  | .ok ev1 =>
    match allocObject hooks σ v with
    | .error e => .error e
    | .ok (a, ev2, σ') => .ok (⟨some a, .uniq v a⟩, ev1 ++ ev2, σ')

/-- `StoreObject(const std::shared_ptr<T>&)`: Reset, copy the shared
handle into the buffer and point `object_ptr_` at its referenced address
(`ptr->get()`, null for a null handle); install the shared-handle
operations.  No heap allocation of the object itself. -/
def TypeErasedObject.StoreSharedObject (hooks : Hooks) (c : TypeErasedObject)
    (tgt : Option Addr) : Except Error (TypeErasedObject × List AllocEvent) :=
  match destroyContents hooks c.store with
  | .error e => .error e
  | .ok ev => .ok (⟨tgt, .shared tgt⟩, ev)

/-- Running the captured copy-constructor operation against a destination
buffer, returning the new `object_ptr_` and buffer state:
  * `CopySharedPointer` duplicates the handle (cheap, never fails);
  * `CopyHeapObject<U>` for a copy-constructible `U` performs a real copy
    into newly allocated storage (same allocator discipline as
    StoreObject);
  * `CopyHeapObject<U>` for a non-copy-constructible `U` is the overload
    that unconditionally raises `kNonCopyableObject`. -/
def copyOpRun (hooks : Hooks) (σ : Nat) :
    StoreState → Except Error (Option Addr × StoreState × List AllocEvent × Nat)
  | .noOps => .ok (none, .noOps, [], σ)
  | .shared tgt => .ok (tgt, .shared tgt, [], σ)
  | .uniq v _heap =>
    if v.copyable then
      match allocObject hooks σ v with
      | .error e => .error e
      | .ok (a, ev, σ') => .ok (some a, .uniq v a, ev, σ')
    else .error .nonCopyableObject

/-- Running the captured move-constructor operation
(`MoveSmartPointer<T>`): move-construct the smart pointer into the
destination buffer and return its `get()`.  Never allocates. -/
def moveOpRun : StoreState → Option Addr × StoreState
  | .noOps => (none, .noOps)
  | .uniq v heap => (some heap, .uniq v heap)
  | .shared tgt => (tgt, .shared tgt)

/-- The copy constructor `TypeErasedObject(const TypeErasedObject&)`:
copy the three operation pointers; if the source has a stored object run
its copy operation, otherwise alias `object_ptr_`. -/
def TypeErasedObject.copyCtor (hooks : Hooks) (σ : Nat)
    (src : TypeErasedObject) :
    Except Error (TypeErasedObject × List AllocEvent × Nat) :=
  if src.hasStoredObject then
    match copyOpRun hooks σ src.store with
    | .error e => .error e
    | .ok (p, s, ev, σ') => .ok (⟨p, s⟩, ev, σ')
  else .ok (⟨src.objectPtr, .noOps⟩, [], σ)

/-- The copy assignment `operator =(const TypeErasedObject&)`: no-op on
self-assignment; otherwise destroy own contents, copy the operation
pointers, then run the copy operation (or alias the pointer). -/
def TypeErasedObject.copyAssign (hooks : Hooks) (σ : Nat) (self : Bool)
    (dest src : TypeErasedObject) :
    Except Error (TypeErasedObject × List AllocEvent × Nat) :=
  if self then .ok (dest, [], σ)
  else
    match destroyContents hooks dest.store with
    | .error e => .error e
    | .ok ev1 =>
      if src.hasStoredObject then
        match copyOpRun hooks σ src.store with
        | .error e => .error e
        | .ok (p, s, ev2, σ') => .ok (⟨p, s⟩, ev1 ++ ev2, σ')
      else .ok (⟨src.objectPtr, .noOps⟩, ev1, σ)

/-- The move constructor `TypeErasedObject(TypeErasedObject&&)`: swap all
fields with a default-constructed state, then, if an object is stored,
relocate the buffer contents with the move operation.  Returns
(destination, what is left of the source). -/
def TypeErasedObject.moveCtor (src : TypeErasedObject) :
    TypeErasedObject × TypeErasedObject :=
  if src.hasStoredObject then
    let (p, s) := moveOpRun src.store
    (⟨p, s⟩, emptyObject)
  else (⟨src.objectPtr, .noOps⟩, emptyObject)

/-- The move assignment `operator =(TypeErasedObject&&)`: no-op on
self-assignment; otherwise destroy own contents (which can raise through
a custom deallocator), clear own fields, swap with the source and, if an
object is stored, relocate the buffer contents.  Returns (destination,
what is left of the source, events). -/
def TypeErasedObject.moveAssign (hooks : Hooks) (self : Bool)
    (dest src : TypeErasedObject) :
    Except Error (TypeErasedObject × TypeErasedObject × List AllocEvent) :=
  if self then .ok (dest, src, [])
  else
    match destroyContents hooks dest.store with
    | .error e => .error e
    | .ok ev =>
      if src.hasStoredObject then
        .ok (⟨(moveOpRun src.store).1, (moveOpRun src.store).2⟩, emptyObject, ev)
      else .ok (⟨src.objectPtr, .noOps⟩, emptyObject, ev)

/-- The erased trampoline a `func_ptr_` can point to.  Arguments and
return values are abstracted as naturals.
  * `freeFn` models `CallFunctionAddress<func_ptr>`: ignores the object
    pointer and forwards to the free function.
  * `memberFn` models `CallMemberFuncAddress<MemberFuncPtr, func_ptr>`:
    debug-checks the object pointer for null (`kInvalidObject`), then
    calls the member function on it.
  * `callable` models `CallCallable<Callable>`: debug-checks the object
    pointer, then invokes the stored callable's `operator()`. -/
inductive Trampoline
  | freeFn (f : List Nat → Nat)
  | memberFn (m : Addr → List Nat → Nat)
  | callable (c : Addr → List Nat → Nat)

/-- Calling through a trampoline with an erased object pointer. -/
def callTrampoline : Trampoline → Option Addr → List Nat → Except Error Nat
  | .freeFn f, _, args => .ok (f args)
  | .memberFn m, obj, args =>
    match obj with
    | none => .error .invalidObject
    | some a => .ok (m a args)
  | .callable c, obj, args =>
    match obj with
    | none => .error .invalidObject
    | some a => .ok (c a args)

/-- The erased callable core of type_erased_function.h: the storage cell,
the erased trampoline pointer (`none` = null) and the runtime type id. -/
structure TypeErasedFunction where
  object : TypeErasedObject
  funcPtr : Option Trampoline
  typeId : Nat

/-- The default constructor `TypeErasedFunction()`: null trampoline,
type id 0, empty cell. -/
def TypeErasedFunction.mkEmpty : TypeErasedFunction := ⟨emptyObject, none, 0⟩

/-- `GetObject()` at the core level. -/
def TypeErasedFunction.GetObject (f : TypeErasedFunction) : Option Addr :=
  f.object.objectPtr

/-- `operator bool()` / comparison with nullptr: bound iff the trampoline
is set. -/
def TypeErasedFunction.isBound (f : TypeErasedFunction) : Bool :=
  f.funcPtr.isSome

/-- The copy assignment `TypeErasedFunction::operator =(const
TypeErasedFunction&)` (type_erased_function.hpp:51-62): no-op on self;
`MAGIC_FUNC_CHECK(type_id_ == 0 || type_id_ == function.type_id_,
kIncompatibleType)`; then copy the cell (which may itself raise), the
trampoline and the type id. -/
def TypeErasedFunction.assignCopy (hooks : Hooks) (σ : Nat) (self : Bool)
    (dest src : TypeErasedFunction) :
    Except Error (TypeErasedFunction × List AllocEvent × Nat) :=
  if self then .ok (dest, [], σ)
  else if dest.typeId = 0 ∨ dest.typeId = src.typeId then
    match TypeErasedObject.copyAssign hooks σ false dest.object src.object with
    | .error e => .error e
    | .ok (c, ev, σ') => .ok (⟨c, src.funcPtr, src.typeId⟩, ev, σ')
  else .error .incompatibleType

/-- The move assignment `TypeErasedFunction::operator
=(TypeErasedFunction&&)` (type_erased_function.hpp:64-79): no-op on self;
same type check; then `object_.Reset()` (which may raise through a custom
deallocator), clear own trampoline and type id, and swap all three fields
with the source.  The destination adopts the source's cell (relocated by
the cell move operations), trampoline and type id; the source is left
with an empty cell, a null trampoline and type id 0. -/
def TypeErasedFunction.assignMove (hooks : Hooks) (self : Bool)
    (dest src : TypeErasedFunction) :
    Except Error (TypeErasedFunction × TypeErasedFunction × List AllocEvent) :=
  if self then .ok (dest, src, [])
  else if dest.typeId = 0 ∨ dest.typeId = src.typeId then
    match destroyContents hooks dest.object.store with
    | .error e => .error e
    | .ok ev =>
      if src.object.hasStoredObject then
        .ok (⟨⟨(moveOpRun src.object.store).1, (moveOpRun src.object.store).2⟩,
              src.funcPtr, src.typeId⟩, ⟨emptyObject, none, 0⟩, ev)
      else
        .ok (⟨⟨src.object.objectPtr, .noOps⟩, src.funcPtr, src.typeId⟩,
             ⟨emptyObject, none, 0⟩, ev)
  else .error .incompatibleType

/-- The move constructor `TypeErasedFunction(TypeErasedFunction&&)`
(type_erased_function.hpp:44-49): start from null/0 and swap every field
with the source; the cell transfer happens through the cell move
constructor.  Returns (new object, what is left of the source). -/
def TypeErasedFunction.moveCtor (src : TypeErasedFunction) :
    TypeErasedFunction × TypeErasedFunction :=
  let (c, rest) := TypeErasedObject.moveCtor src.object
  (⟨c, src.funcPtr, src.typeId⟩, ⟨rest, none, 0⟩)

/-- The (defaulted, member-wise) copy constructor: copy the cell through
its copy constructor (which may raise), the trampoline and the type id. -/
def TypeErasedFunction.copyCtor (hooks : Hooks) (σ : Nat)
    (src : TypeErasedFunction) :
    Except Error (TypeErasedFunction × List AllocEvent × Nat) :=
  match TypeErasedObject.copyCtor hooks σ src.object with
  | .error e => .error e
  | .ok (c, ev, σ') => .ok (⟨c, src.funcPtr, src.typeId⟩, ev, σ')

/-- `operator =(std::nullptr_t)` (type_erased_function.hpp:81-85): null
the trampoline and Reset the cell; the type id is not touched. -/
def TypeErasedFunction.assignNull (hooks : Hooks) (f : TypeErasedFunction) :
    Except Error (TypeErasedFunction × List AllocEvent) :=
  match destroyContents hooks f.object.store with
  | .error e => .error e
  | .ok ev => .ok (⟨emptyObject, none, f.typeId⟩, ev)

/-- `Function<Return(Args...)>::operator ()` (function.hpp:142-150):
debug-check the trampoline for null (`kInvalidFunction`), then call it on
the cell's `GetObject()` and the arguments. -/
def TypeErasedFunction.invoke (f : TypeErasedFunction) (args : List Nat) :
    Except Error Nat :=
  match f.funcPtr with
  | none => .error .invalidFunction
  | some t => callTrampoline t f.object.objectPtr args

/-- `MemberFunction<M>::operator ()(object, args...)`
(member_function.hpp:62-71): debug-check the trampoline for null
(`kInvalidFunction`), then call it on the address of the caller-supplied
receiver (never null) and the arguments.  The cell is not consulted. -/
def TypeErasedFunction.invokeOn (f : TypeErasedFunction) (obj : Addr)
    (args : List Nat) : Except Error Nat :=
  match f.funcPtr with
  | none => .error .invalidFunction
  | some t => callTrampoline t (some obj) args

namespace Function

/-- `Function<S>::Function()`: tag from `get_type_id<FunctionType>`,
no trampoline, empty cell. -/
def mkDefault (S : FnSig) : TypeErasedFunction :=
  ⟨emptyObject, none, get_type_id (.fn S)⟩

/-- `Function<S>::FromFunction<func_ptr>()`: tag for S plus the
free-function trampoline; the cell stays empty. -/
def FromFunction (S : FnSig) (f : List Nat → Nat) : TypeErasedFunction :=
  ⟨emptyObject, some (.freeFn f), get_type_id (.fn S)⟩

/-- `Function<S>::FromMemberFunction<Object, func_ptr>(Object* object)`
(function.hpp:51-61): `MAGIC_FUNC_DCHECK(object, kInvalidObject)`, then a
core tagged for S with the member trampoline and the receiver stored by
`StorePointer` (non-owning). -/
def FromMemberFunction (S : FnSig) (m : Addr → List Nat → Nat)
    (obj : Option Addr) : Except Error TypeErasedFunction :=
  match obj with
  | none => .error .invalidObject
  | some a => .ok ⟨⟨some a, .noOps⟩, some (.memberFn m), get_type_id (.fn S)⟩

/-- `Function<S>::FromMemberFunction<Object, func_ptr>(const
std::shared_ptr<Object>&)` (function.hpp:63-73): `MAGIC_FUNC_DCHECK` on
the handle, then the receiver is stored by `StoreObject(shared_ptr)`. -/
def FromMemberFunctionShared (S : FnSig) (m : Addr → List Nat → Nat)
    (obj : Option Addr) : Except Error TypeErasedFunction :=
  match obj with
  | none => .error .invalidObject
  | some a => .ok ⟨⟨some a, .shared (some a)⟩, some (.memberFn m), get_type_id (.fn S)⟩

/-- The constructor `Function(const MemberFunction<M>&, Object* object)`
(function.hpp:75-87): tag for S, `MAGIC_FUNC_DCHECK(class_ptr,
kInvalidObject)`, adopt the MemberFunction's trampoline, store the
receiver pointer. -/
def bindMemberFunction (S : FnSig) (memberFunc : TypeErasedFunction)
    (obj : Option Addr) : Except Error TypeErasedFunction :=
  match obj with
  | none => .error .invalidObject
  | some a => .ok ⟨⟨some a, .noOps⟩, memberFunc.funcPtr, get_type_id (.fn S)⟩

/-- The constructor `Function(const MemberFunction<M>&, const
std::shared_ptr<Object>&)` (function.hpp:89-103). -/
def bindMemberFunctionShared (S : FnSig) (memberFunc : TypeErasedFunction)
    (obj : Option Addr) : Except Error TypeErasedFunction :=
  match obj with
  | none => .error .invalidObject
  | some a => .ok ⟨⟨some a, .shared (some a)⟩, memberFunc.funcPtr, get_type_id (.fn S)⟩

/-- The constructor `Function(Callable&&)` (function.hpp:105-114): tag for
S, callable trampoline, callable stored by value (owned mode). -/
def fromCallable (hooks : Hooks) (σ : Nat) (S : FnSig)
    (c : Addr → List Nat → Nat) (v : Val) :
    Except Error (TypeErasedFunction × List AllocEvent × Nat) :=
  match TypeErasedObject.StoreObject hooks σ emptyObject v with
  | .error e => .error e
  | .ok (cell, ev, σ') => .ok (⟨cell, some (.callable c), get_type_id (.fn S)⟩, ev, σ')

end Function

namespace MemberFunction

/-- `MemberFunction<M>::MemberFunction()`: tag from `GetTypeId<M>` for the
member-pointer signature (cv-qualification included), no trampoline. -/
def mkDefault (M : MemSig) : TypeErasedFunction :=
  ⟨emptyObject, none, get_type_id (.mem M)⟩

/-- `MemberFunction<M>::FromMemberFunction<member_func_ptr>()`: tag for M
plus the member trampoline; no receiver is stored. -/
def FromMemberFunction (M : MemSig) (m : Addr → List Nat → Nat) :
    TypeErasedFunction :=
  ⟨emptyObject, some (.memberFn m), get_type_id (.mem M)⟩

end MemberFunction

/-- The target type `T` given to `function_cast<T>`: an ordinary function
type, a function pointer type (whose `FunctionTraits<T>::FunctionType`
strips the pointer), or a member function pointer type. -/
inductive CastTarget
  | funcType (s : FnSig)
  | funcPtr (s : FnSig)
  | memFuncPtr (m : MemSig)
deriving DecidableEq

/-- The signature whose tag the cast compares against. -/
def castTargetSig : CastTarget → Sig
  | .funcType s => .fn s
  | .funcPtr s => .fn s
  | .memFuncPtr m => .mem m

/-- `function_cast<T>` (function_cast.h): `MAGIC_FUNC_CHECK(
function.type_id() == GetTypeId<...>(), kInvalidCast)`, then reinterpret
the same reference as the typed façade: no data is read or moved, so the
result is the very same object state. -/
def function_cast (T : CastTarget) (f : TypeErasedFunction) :
    Except Error TypeErasedFunction :=
  if f.typeId = get_type_id (castTargetSig T) then .ok f
  else .error .invalidCast

/-- Whether the stored content can be copied without raising under the
default allocator: anything except an owned value whose type is not
copy-constructible. -/
def storeCopySafe : StoreState → Bool
  | .uniq v _ => v.copyable
  | _ => true

/-! ## Helper lemmas -/

/-- Destroying under the default allocator never fails. -/
theorem destroyContents_noHooks_ok (s : StoreState) :
    ∃ ev, destroyContents noHooks s = .ok ev := by
  cases s <;> simp [destroyContents, noHooks]

/-- Allocation under the default allocator: plain `new` at the next fresh
address. -/
theorem allocObject_noHooks (σ : Nat) (v : Val) :
    allocObject noHooks σ v = .ok (σ, [.defaultNew σ], σ + 1) := rfl

/-- Destroying never allocates: every event it emits is a deallocation. -/
theorem destroyContents_no_allocation (hooks : Hooks) (s : StoreState)
    (ev : List AllocEvent) (h : destroyContents hooks s = .ok ev) :
    ∀ e ∈ ev, e.isAllocation = false := by
  cases s with
  | noOps =>
    simp only [destroyContents] at h
    cases h
    intro e he
    cases he
  | uniq v heap =>
    obtain ⟨al, dl⟩ := hooks
    cases dl with
    | none =>
      simp only [destroyContents] at h
      cases h
      intro e he
      simp at he
      subst he
      rfl
    | some p =>
      obtain ⟨f, ctx⟩ := p
      simp only [destroyContents] at h
      by_cases hf : f heap v.size v.align ctx = true
      · rw [if_pos hf] at h
        cases h
        intro e he
        simp at he
        subst he
        rfl
      · rw [if_neg hf] at h
        cases h
  | shared tgt =>
    simp only [destroyContents] at h
    cases h
    intro e he
    cases he

/-! ## Claims -/

/-- C1: for every type-erased function whose type id differs from the tag
computed for the target signature T, `function_cast<T>` raises
InvalidCast — and any target whose signature (ordinary function type,
function pointer type, or member function pointer type, including
signatures differing only in argument types, return type, or member
cv-qualification) differs from the signature the function was tagged for
yields such a tag mismatch; the cast never silently succeeds on a
mismatch. -/
theorem C1_cast_mismatch_raises :
    (∀ (f : TypeErasedFunction) (T : CastTarget),
      f.typeId ≠ get_type_id (castTargetSig T) →
      function_cast T f = .error .invalidCast) ∧
    (∀ (A : Sig) (T : CastTarget) (f : TypeErasedFunction),
      f.typeId = get_type_id A → castTargetSig T ≠ A →
      function_cast T f = .error .invalidCast) := by
  constructor
  · intro f T h
    simp only [function_cast, if_neg h]
  · intro A T f hf hne
    have h : f.typeId ≠ get_type_id (castTargetSig T) := by
      rw [hf]
      intro hc
      exact hne (get_type_id_injective _ _ hc.symm)
    simp only [function_cast, if_neg h]

/-- Witness for C1: a façade tagged for `int()` cannot be cast to the
signature `bool()`, and a member façade for an unqualified member
function cannot be cast to the member pointer type differing only in
const qualification. -/
theorem C1_cast_mismatch_raises_witness :
    function_cast (.funcType ⟨1, []⟩) (Function.mkDefault ⟨0, []⟩) =
      .error .invalidCast ∧
    function_cast (.memFuncPtr ⟨0, true, false, ⟨0, []⟩⟩)
      (MemberFunction.mkDefault ⟨0, false, false, ⟨0, []⟩⟩) =
      .error .invalidCast :=
  ⟨C1_cast_mismatch_raises.2 (.fn ⟨0, []⟩) (.funcType ⟨1, []⟩)
      (Function.mkDefault ⟨0, []⟩) rfl (by decide),
   C1_cast_mismatch_raises.2 (.mem ⟨0, false, false, ⟨0, []⟩⟩)
      (.memFuncPtr ⟨0, true, false, ⟨0, []⟩⟩)
      (MemberFunction.mkDefault ⟨0, false, false, ⟨0, []⟩⟩) rfl (by decide)⟩

/-- C2: round-trip identity — for every bound façade of signature S,
casting its type-erased view back with `function_cast<S>` succeeds and
returns the very same object state (no data movement), so the result is
still bound, has the same receiver/closure address (GetObject), and
invoking it with any arguments produces the same result. -/
theorem C2_roundtrip_identity (S : FnSig) (f : TypeErasedFunction)
    (hb : f.isBound = true) (ht : f.typeId = get_type_id (.fn S)) :
    function_cast (.funcType S) f = .ok f ∧
    ∀ g, function_cast (.funcType S) f = .ok g →
      g.isBound = true ∧ g.GetObject = f.GetObject ∧
      ∀ args, g.invoke args = f.invoke args := by
  have hc : function_cast (.funcType S) f = .ok f := by
    simp only [function_cast, castTargetSig, if_pos ht]
  refine ⟨hc, ?_⟩
  intro g hg
  rw [hc] at hg
  injection hg with h
  subst h
  exact ⟨hb, rfl, fun _ => rfl⟩

/-- Witness for C2: a façade for `int()` holding a free function is
recovered unchanged by the cast. -/
theorem C2_roundtrip_identity_witness :
    function_cast (.funcType ⟨0, []⟩)
      (Function.FromFunction ⟨0, []⟩ (fun _ => 7)) =
      .ok (Function.FromFunction ⟨0, []⟩ (fun _ => 7)) :=
  (C2_roundtrip_identity ⟨0, []⟩
    (Function.FromFunction ⟨0, []⟩ (fun _ => 7)) rfl rfl).1

/-- C4: binding a member function to a null receiver — a null raw object
pointer passed to FromMemberFunction or to the
`Function(MemberFunction, Object*)` constructor, or a null shared handle
passed to their shared counterparts — raises InvalidObject and yields no
façade. -/
theorem C4_null_receiver_rejected :
    ∀ (S : FnSig) (m : Addr → List Nat → Nat) (memberFunc : TypeErasedFunction),
      Function.FromMemberFunction S m none = .error .invalidObject ∧
      Function.FromMemberFunctionShared S m none = .error .invalidObject ∧
      Function.bindMemberFunction S memberFunc none = .error .invalidObject ∧
      Function.bindMemberFunctionShared S memberFunc none = .error .invalidObject :=
  fun _ _ _ => ⟨rfl, rfl, rfl, rfl⟩

/-- C6: invoking a façade whose trampoline is null — as after default
construction or assignment of nullptr — raises InvalidFunction, for both
`Function::operator()` and `MemberFunction::operator()`. -/
theorem C6_invoke_unset_raises :
    (∀ f : TypeErasedFunction, f.funcPtr = none →
      (∀ args, f.invoke args = .error .invalidFunction) ∧
      (∀ obj args, f.invokeOn obj args = .error .invalidFunction)) ∧
    (∀ S args, (Function.mkDefault S).invoke args = .error .invalidFunction) ∧
    (∀ M obj args,
      (MemberFunction.mkDefault M).invokeOn obj args = .error .invalidFunction) ∧
    (∀ hooks (f g : TypeErasedFunction) ev,
      TypeErasedFunction.assignNull hooks f = .ok (g, ev) →
      (∀ args, g.invoke args = .error .invalidFunction) ∧
      (∀ obj args, g.invokeOn obj args = .error .invalidFunction)) := by
  refine ⟨?_, ?_, ?_, ?_⟩
  · intro f h
    exact ⟨fun args => by simp [TypeErasedFunction.invoke, h],
           fun obj args => by simp [TypeErasedFunction.invokeOn, h]⟩
  · intro S args
    rfl
  · intro M obj args
    rfl
  · intro hooks f g ev h
    simp only [TypeErasedFunction.assignNull] at h
    split at h
    · cases h
    · injection h with h2
      injection h2 with hg hev
      subst hg
      exact ⟨fun args => rfl, fun obj args => rfl⟩

/-- Witness for C6: the empty core raises InvalidFunction on both call
paths, and so does a façade after nullptr assignment. -/
theorem C6_invoke_unset_raises_witness :
    TypeErasedFunction.mkEmpty.invoke [] = .error .invalidFunction ∧
    TypeErasedFunction.mkEmpty.invokeOn 3 [] = .error .invalidFunction ∧
    (∀ args,
      (⟨emptyObject, none, get_type_id (.fn ⟨0, []⟩)⟩ :
        TypeErasedFunction).invoke args = .error .invalidFunction) :=
  ⟨(C6_invoke_unset_raises.1 TypeErasedFunction.mkEmpty rfl).1 [],
   (C6_invoke_unset_raises.1 TypeErasedFunction.mkEmpty rfl).2 3 [],
   fun args =>
     (C6_invoke_unset_raises.2.2.2 noHooks
       (Function.FromFunction ⟨0, []⟩ (fun _ => 7))
       ⟨emptyObject, none, get_type_id (.fn ⟨0, []⟩)⟩ [] rfl).1 args⟩

/-- Helper: a successful non-self cell copy assignment leaves the
destination storing an object iff the source stores one. -/
theorem copyAssign_adopts_stored (hooks : Hooks) (σ : Nat)
    (dest src c : TypeErasedObject) (ev : List AllocEvent) (σ' : Nat)
    (h : TypeErasedObject.copyAssign hooks σ false dest src = .ok (c, ev, σ')) :
    c.hasStoredObject = src.hasStoredObject := by
  obtain ⟨sp, sst⟩ := src
  simp only [TypeErasedObject.copyAssign, if_neg Bool.false_ne_true] at h
  split at h
  · cases h
  · cases sst with
    | noOps =>
      simp only [TypeErasedObject.hasStoredObject, StoreState.isStored,
        Bool.false_eq_true, if_false, Except.ok.injEq, Prod.mk.injEq] at h
      obtain ⟨h1, -, -⟩ := h
      subst h1
      rfl
    | uniq v a =>
      simp only [TypeErasedObject.hasStoredObject, StoreState.isStored,
        if_true] at h ⊢
      match hro : copyOpRun hooks σ (.uniq v a) with
      | .error e => rw [hro] at h; cases h
      | .ok (p, s, ev2, σ2) =>
        rw [hro] at h
        simp only [Except.ok.injEq, Prod.mk.injEq] at h
        obtain ⟨h1, -, -⟩ := h
        subst h1
        simp only [copyOpRun] at hro
        by_cases hv : v.copyable = true
        · rw [if_pos hv] at hro
          split at hro
          · cases hro
          · simp only [Except.ok.injEq, Prod.mk.injEq] at hro
            obtain ⟨-, hs, -, -⟩ := hro
            rw [← hs]
        · rw [if_neg hv] at hro
          cases hro
    | shared tgt =>
      simp only [TypeErasedObject.hasStoredObject, StoreState.isStored,
        if_true, copyOpRun, Except.ok.injEq, Prod.mk.injEq] at h ⊢
      obtain ⟨h1, -, -⟩ := h
      subst h1
      rfl

/-- Helper: under the default allocator, a non-self cell copy assignment
from a source whose content is copy-safe always succeeds. -/
theorem copyAssign_noHooks_ok (σ : Nat) (dest src : TypeErasedObject)
    (hs : storeCopySafe src.store = true) :
    ∃ c ev σ', TypeErasedObject.copyAssign noHooks σ false dest src = .ok (c, ev, σ') := by
  obtain ⟨sp, sst⟩ := src
  obtain ⟨ev0, hev⟩ := destroyContents_noHooks_ok dest.store
  simp only [TypeErasedObject.copyAssign, if_neg Bool.false_ne_true, hev]
  cases sst with
  | noOps =>
    exact ⟨⟨sp, .noOps⟩, ev0, σ, rfl⟩
  | uniq v a =>
    simp only [storeCopySafe] at hs
    simp only [TypeErasedObject.hasStoredObject, StoreState.isStored, if_true,
      copyOpRun, hs, allocObject, noHooks]
    exact ⟨⟨some σ, .uniq v σ⟩, ev0 ++ [.defaultNew σ], σ + 1, rfl⟩
  | shared tgt =>
    simp only [TypeErasedObject.hasStoredObject, StoreState.isStored, if_true,
      copyOpRun]
    exact ⟨⟨tgt, .shared tgt⟩, ev0 ++ [], σ, rfl⟩

/-- C3 counterexample: the claim says assignment succeeds unless both type
ids are non-zero and differ; but copy-assigning (and move-assigning) a
never-tagged core (type id 0) into a façade tagged for `int()` (type id
non-zero) raises IncompatibleType, exactly as the repository's own
TypeErasedFunction.Assign test expects. -/
theorem C3_assignment_counterexample :
    TypeErasedFunction.mkEmpty.typeId = 0 ∧
    (Function.mkDefault ⟨0, []⟩).typeId ≠ 0 ∧
    TypeErasedFunction.assignCopy noHooks 0 false (Function.mkDefault ⟨0, []⟩)
      TypeErasedFunction.mkEmpty = .error .incompatibleType ∧
    TypeErasedFunction.assignMove noHooks false (Function.mkDefault ⟨0, []⟩)
      TypeErasedFunction.mkEmpty = .error .incompatibleType :=
  ⟨rfl, by decide, rfl, rfl⟩

/-- C3 amended: copy- or move-assigning `b` into `a` raises
IncompatibleType exactly when `a`'s type id is non-zero and differs from
`b`'s — including when `b`'s type id is 0; when `a`'s type id is 0 or the
ids agree, the tag check passes and the assignment performs the storage
transfer, which succeeds unless the storage copy itself raises (it can,
for a non-copyable owned value or a failing custom allocator): on success
`a` adopts `b`'s type id together with `b`'s trampoline and storage. -/
theorem C3_assignment_tag_check_amended :
    ∀ (hooks : Hooks) (σ : Nat) (a b : TypeErasedFunction),
    (a.typeId ≠ 0 → a.typeId ≠ b.typeId →
      TypeErasedFunction.assignCopy hooks σ false a b = .error .incompatibleType ∧
      TypeErasedFunction.assignMove hooks false a b = .error .incompatibleType) ∧
    ((a.typeId = 0 ∨ a.typeId = b.typeId) →
      (∀ res ev σ',
        TypeErasedFunction.assignCopy hooks σ false a b = .ok (res, ev, σ') →
        res.typeId = b.typeId ∧ res.funcPtr = b.funcPtr ∧
        res.object.hasStoredObject = b.object.hasStoredObject) ∧
      (storeCopySafe b.object.store = true →
        ∃ res ev σ',
          TypeErasedFunction.assignCopy noHooks σ false a b = .ok (res, ev, σ')) ∧
      (∃ d s ev, TypeErasedFunction.assignMove noHooks false a b = .ok (d, s, ev) ∧
        d.typeId = b.typeId ∧ d.funcPtr = b.funcPtr ∧ s.typeId = 0)) := by
  intro hooks σ a b
  constructor
  · intro h0 hne
    have hcond : ¬(a.typeId = 0 ∨ a.typeId = b.typeId) := by
      intro hc
      cases hc with
      | inl h => exact h0 h
      | inr h => exact hne h
    constructor
    · simp only [TypeErasedFunction.assignCopy, if_neg Bool.false_ne_true,
        if_neg hcond]
    · simp only [TypeErasedFunction.assignMove, if_neg Bool.false_ne_true,
        if_neg hcond]
  · intro hcond
    refine ⟨?_, ?_, ?_⟩
    · intro res ev σ' h
      simp only [TypeErasedFunction.assignCopy, if_neg Bool.false_ne_true,
        if_pos hcond] at h
      match hca : TypeErasedObject.copyAssign hooks σ false a.object b.object with
      | .error e => rw [hca] at h; cases h
      | .ok (c, ev2, σ2) =>
        rw [hca] at h
        simp only [Except.ok.injEq, Prod.mk.injEq] at h
        obtain ⟨h1, -, -⟩ := h
        subst h1
        exact ⟨rfl, rfl, copyAssign_adopts_stored hooks σ a.object b.object c ev2 σ2 hca⟩
    · intro hs
      obtain ⟨c, ev, σ', hok⟩ := copyAssign_noHooks_ok σ a.object b.object hs
      refine ⟨⟨c, b.funcPtr, b.typeId⟩, ev, σ', ?_⟩
      simp only [TypeErasedFunction.assignCopy, if_neg Bool.false_ne_true,
        if_pos hcond, hok]
    · obtain ⟨ev0, hev⟩ := destroyContents_noHooks_ok a.object.store
      by_cases hst : b.object.hasStoredObject = true
      · refine ⟨⟨⟨(moveOpRun b.object.store).1, (moveOpRun b.object.store).2⟩,
          b.funcPtr, b.typeId⟩, ⟨emptyObject, none, 0⟩, ev0, ?_, rfl, rfl, rfl⟩
        simp only [TypeErasedFunction.assignMove, if_neg Bool.false_ne_true,
          if_pos hcond, hev, if_pos hst]
      · refine ⟨⟨⟨b.object.objectPtr, .noOps⟩, b.funcPtr, b.typeId⟩,
          ⟨emptyObject, none, 0⟩, ev0, ?_, rfl, rfl, rfl⟩
        simp only [TypeErasedFunction.assignMove, if_neg Bool.false_ne_true,
          if_pos hcond, hev, if_neg hst]

/-- Witness for the amended C3: both branches exercised — a tagged façade
rejects an untagged source, and an untagged core successfully adopts a
tagged source's id and trampoline. -/
theorem C3_assignment_tag_check_amended_witness :
    TypeErasedFunction.assignCopy noHooks 0 false (Function.mkDefault ⟨0, []⟩)
      TypeErasedFunction.mkEmpty = .error .incompatibleType ∧
    (∃ res ev σ',
      TypeErasedFunction.assignCopy noHooks 0 false TypeErasedFunction.mkEmpty
        (Function.mkDefault ⟨0, []⟩) = .ok (res, ev, σ')) :=
  ⟨(C3_assignment_tag_check_amended noHooks 0 (Function.mkDefault ⟨0, []⟩)
      TypeErasedFunction.mkEmpty).1 (by decide) (by decide) |>.1,
   ((C3_assignment_tag_check_amended noHooks 0 TypeErasedFunction.mkEmpty
      (Function.mkDefault ⟨0, []⟩)).2 (Or.inl rfl)).2.1 rfl⟩

/-- C10: copy- or move-assigning a never-tagged core (type id 0) into a
function whose type id is non-zero raises IncompatibleType — an empty
untagged core is not accepted as the null sentinel; the way to clear a
tagged function is assigning nullptr, which succeeds (whenever destroying
the stored contents does, always under the default allocator) and
preserves the tag. -/
theorem C10_untagged_source_not_null_sentinel :
    ∀ (hooks : Hooks) (σ : Nat) (a b : TypeErasedFunction),
    a.typeId ≠ 0 → b.typeId = 0 →
    (TypeErasedFunction.assignCopy hooks σ false a b = .error .incompatibleType ∧
     TypeErasedFunction.assignMove hooks false a b = .error .incompatibleType) ∧
    (∀ g ev, TypeErasedFunction.assignNull hooks a = .ok (g, ev) →
      g.typeId = a.typeId ∧ g.funcPtr = none) ∧
    (∃ g ev, TypeErasedFunction.assignNull noHooks a = .ok (g, ev) ∧
      g.typeId = a.typeId ∧ g.funcPtr = none) := by
  intro hooks σ a b ha hb
  have hcond : ¬(a.typeId = 0 ∨ a.typeId = b.typeId) := by
    intro hc
    cases hc with
    | inl h => exact ha h
    | inr h => rw [hb] at h; exact ha h
  refine ⟨⟨?_, ?_⟩, ?_, ?_⟩
  · simp only [TypeErasedFunction.assignCopy, if_neg Bool.false_ne_true,
      if_neg hcond]
  · simp only [TypeErasedFunction.assignMove, if_neg Bool.false_ne_true,
      if_neg hcond]
  · intro g ev h
    simp only [TypeErasedFunction.assignNull] at h
    split at h
    · cases h
    · simp only [Except.ok.injEq, Prod.mk.injEq] at h
      obtain ⟨h1, -⟩ := h
      subst h1
      exact ⟨rfl, rfl⟩
  · obtain ⟨ev0, hev⟩ := destroyContents_noHooks_ok a.object.store
    refine ⟨⟨emptyObject, none, a.typeId⟩, ev0, ?_, rfl, rfl⟩
    simp only [TypeErasedFunction.assignNull, hev]

/-- Witness for C10: a façade tagged for `int()` rejects a
default-constructed TypeErasedFunction on both assignment paths, and
nullptr assignment keeps its tag. -/
theorem C10_untagged_source_not_null_sentinel_witness :
    TypeErasedFunction.assignCopy noHooks 0 false (Function.mkDefault ⟨0, []⟩)
      TypeErasedFunction.mkEmpty = .error .incompatibleType ∧
    TypeErasedFunction.assignMove noHooks false (Function.mkDefault ⟨0, []⟩)
      TypeErasedFunction.mkEmpty = .error .incompatibleType ∧
    (∃ g ev,
      TypeErasedFunction.assignNull noHooks (Function.mkDefault ⟨0, []⟩) =
        .ok (g, ev) ∧
      g.typeId = (Function.mkDefault ⟨0, []⟩).typeId ∧ g.funcPtr = none) :=
  ⟨((C10_untagged_source_not_null_sentinel noHooks 0 (Function.mkDefault ⟨0, []⟩)
      TypeErasedFunction.mkEmpty (by decide) rfl).1).1,
   ((C10_untagged_source_not_null_sentinel noHooks 0 (Function.mkDefault ⟨0, []⟩)
      TypeErasedFunction.mkEmpty (by decide) rfl).1).2,
   (C10_untagged_source_not_null_sentinel noHooks 0 (Function.mkDefault ⟨0, []⟩)
      TypeErasedFunction.mkEmpty (by decide) rfl).2.2⟩

/-- C5 counterexample: the claim says no operation ever changes a set
(non-zero) type id, but an object used as the source of a move assignment
or a move construction gets its type id reset to 0: a façade tagged
non-zero (id 1) for `int()` ends with type id 0 after being moved from. -/
theorem C5_tag_immutability_counterexample :
    (Function.FromFunction ⟨0, []⟩ (fun _ => 0)).typeId = 1 ∧
    (TypeErasedFunction.assignMove noHooks false TypeErasedFunction.mkEmpty
        (Function.FromFunction ⟨0, []⟩ (fun _ => 0))).map
      (fun r => (r.1.typeId, r.2.1.typeId)) = .ok (1, 0) ∧
    (TypeErasedFunction.moveCtor
      (Function.FromFunction ⟨0, []⟩ (fun _ => 0))).2.typeId = 0 :=
  ⟨rfl, rfl, rfl⟩

/-- C5 amended: a non-zero type id is never changed by copy construction,
by copy assignment, by null assignment, or by being the destination of a
successful move assignment; the one exception is being the *source* of a
move construction or move assignment, which transfers the id to the
destination and leaves the source with type id 0. -/
theorem C5_tag_stability_amended :
    ∀ (hooks : Hooks) (σ : Nat) (self : Bool) (a b : TypeErasedFunction),
    a.typeId ≠ 0 →
    (∀ res ev σ',
      TypeErasedFunction.assignCopy hooks σ self a b = .ok (res, ev, σ') →
      res.typeId = a.typeId) ∧
    (∀ d s ev, TypeErasedFunction.assignMove hooks self a b = .ok (d, s, ev) →
      d.typeId = a.typeId) ∧
    (∀ g ev, TypeErasedFunction.assignNull hooks a = .ok (g, ev) →
      g.typeId = a.typeId) ∧
    (∀ g ev σ', TypeErasedFunction.copyCtor hooks σ a = .ok (g, ev, σ') →
      g.typeId = a.typeId) ∧
    ((TypeErasedFunction.moveCtor a).1.typeId = a.typeId ∧
     (TypeErasedFunction.moveCtor a).2.typeId = 0) ∧
    (∀ d s ev, TypeErasedFunction.assignMove hooks false b a = .ok (d, s, ev) →
      d.typeId = a.typeId ∧ s.typeId = 0) := by
  intro hooks σ self a b ha
  refine ⟨?_, ?_, ?_, ?_, ⟨rfl, rfl⟩, ?_⟩
  · intro res ev σ' h
    cases self with
    | true =>
      simp only [TypeErasedFunction.assignCopy, eq_self_iff_true, if_true,
        Except.ok.injEq, Prod.mk.injEq] at h
      obtain ⟨h1, -⟩ := h
      subst h1
      rfl
    | false =>
      simp only [TypeErasedFunction.assignCopy, if_neg Bool.false_ne_true] at h
      split at h
      · rename_i hcond
        split at h
        · cases h
        · simp only [Except.ok.injEq, Prod.mk.injEq] at h
          obtain ⟨h1, -⟩ := h
          subst h1
          cases hcond with
          | inl h0 => exact absurd h0 ha
          | inr heq => exact heq.symm
      · cases h
  · intro d s ev h
    cases self with
    | true =>
      simp only [TypeErasedFunction.assignMove, eq_self_iff_true, if_true,
        Except.ok.injEq, Prod.mk.injEq] at h
      obtain ⟨h1, -⟩ := h
      subst h1
      rfl
    | false =>
      simp only [TypeErasedFunction.assignMove, if_neg Bool.false_ne_true] at h
      split at h
      · rename_i hcond
        split at h
        · cases h
        · split at h <;>
          · simp only [Except.ok.injEq, Prod.mk.injEq] at h
            obtain ⟨h1, -⟩ := h
            subst h1
            cases hcond with
            | inl h0 => exact absurd h0 ha
            | inr heq => exact heq.symm
      · cases h
  · intro g ev h
    simp only [TypeErasedFunction.assignNull] at h
    split at h
    · cases h
    · simp only [Except.ok.injEq, Prod.mk.injEq] at h
      obtain ⟨h1, -⟩ := h
      subst h1
      rfl
  · intro g ev σ' h
    simp only [TypeErasedFunction.copyCtor] at h
    split at h
    · cases h
    · simp only [Except.ok.injEq, Prod.mk.injEq] at h
      obtain ⟨h1, -⟩ := h
      subst h1
      rfl
  · intro d s ev h
    simp only [TypeErasedFunction.assignMove, if_neg Bool.false_ne_true] at h
    split at h
    · split at h
      · cases h
      · split at h <;>
        · simp only [Except.ok.injEq, Prod.mk.injEq] at h
          obtain ⟨h1, h2, -⟩ := h
          subst h1
          subst h2
          exact ⟨rfl, rfl⟩
    · cases h

/-- Witness for the amended C5: a tagged façade keeps its id across
nullptr assignment, and moving it out resets the moved-from id to 0. -/
theorem C5_tag_stability_amended_witness :
    ((TypeErasedFunction.moveCtor
        (Function.FromFunction ⟨0, []⟩ (fun _ => 0))).1.typeId =
      (Function.FromFunction ⟨0, []⟩ (fun _ => 0)).typeId ∧
     (TypeErasedFunction.moveCtor
        (Function.FromFunction ⟨0, []⟩ (fun _ => 0))).2.typeId = 0) ∧
    (∀ g ev, TypeErasedFunction.assignNull noHooks
        (Function.FromFunction ⟨0, []⟩ (fun _ => 0)) = .ok (g, ev) →
      g.typeId = (Function.FromFunction ⟨0, []⟩ (fun _ => 0)).typeId) :=
  ⟨(C5_tag_stability_amended noHooks 0 false
      (Function.FromFunction ⟨0, []⟩ (fun _ => 0))
      TypeErasedFunction.mkEmpty (by decide)).2.2.2.2.1,
   (C5_tag_stability_amended noHooks 0 false
      (Function.FromFunction ⟨0, []⟩ (fun _ => 0))
      TypeErasedFunction.mkEmpty (by decide)).2.2.1⟩

/-- Helper: the captured copy operation of a cell owning a value of a
non-copy-constructible type raises NonCopyableObject under any allocator
state — the erased copy operation was resolved per stored type at store
time, so the rejection is independent of the allocator. -/
theorem copyCtor_noncopyable (hooks : Hooks) (σ a : Nat) (v : Val)
    (hv : v.copyable = false) :
    TypeErasedObject.copyCtor hooks σ ⟨some a, .uniq v a⟩ =
      .error .nonCopyableObject := by
  simp [TypeErasedObject.copyCtor, TypeErasedObject.hasStoredObject,
    StoreState.isStored, copyOpRun, hv]

/-- Helper: copy-assigning a cell owning a non-copyable value into any
destination raises NonCopyableObject under the default allocator. -/
theorem copyAssign_noncopyable (σ a : Nat) (dest : TypeErasedObject) (v : Val)
    (hv : v.copyable = false) :
    TypeErasedObject.copyAssign noHooks σ false dest ⟨some a, .uniq v a⟩ =
      .error .nonCopyableObject := by
  obtain ⟨ev0, hev⟩ := destroyContents_noHooks_ok dest.store
  simp [TypeErasedObject.copyAssign, hev, TypeErasedObject.hasStoredObject,
    StoreState.isStored, copyOpRun, hv]

/-- C7: for every value type that is move-constructible but not
copy-constructible, storing a value of it in a cell succeeds (under the
default allocator), every subsequent copy construction or copy assignment
of the resulting cell — directly or via its owning façade — raises
NonCopyableObject, and every move construction or move assignment of that
cell succeeds without raising any error. -/
theorem C7_noncopyable_guard :
    ∀ (v : Val), v.copyable = false →
    ∀ (σ a : Nat) (c dest : TypeErasedObject),
    (∃ ev σ', TypeErasedObject.StoreObject noHooks σ c v =
      .ok (⟨some σ, .uniq v σ⟩, ev, σ')) ∧
    (∀ hooks σ2, TypeErasedObject.copyCtor hooks σ2 ⟨some a, .uniq v a⟩ =
      .error .nonCopyableObject) ∧
    (TypeErasedObject.copyAssign noHooks σ false dest ⟨some a, .uniq v a⟩ =
      .error .nonCopyableObject) ∧
    (∀ fp tid (destF : TypeErasedFunction),
      (destF.typeId = 0 ∨ destF.typeId = tid) →
      TypeErasedFunction.assignCopy noHooks σ false destF
        ⟨⟨some a, .uniq v a⟩, fp, tid⟩ = .error .nonCopyableObject) ∧
    (∀ hooks σ2 fp tid, TypeErasedFunction.copyCtor hooks σ2
      (⟨⟨some a, .uniq v a⟩, fp, tid⟩ : TypeErasedFunction) =
      .error .nonCopyableObject) ∧
    (TypeErasedObject.moveCtor ⟨some a, .uniq v a⟩ =
      (⟨some a, .uniq v a⟩, emptyObject)) ∧
    (∃ ev, TypeErasedObject.moveAssign noHooks false dest ⟨some a, .uniq v a⟩ =
      .ok (⟨some a, .uniq v a⟩, emptyObject, ev)) := by
  intro v hv σ a c dest
  obtain ⟨ev0, hev0⟩ := destroyContents_noHooks_ok c.store
  obtain ⟨ev1, hev1⟩ := destroyContents_noHooks_ok dest.store
  refine ⟨?_, ?_, ?_, ?_, ?_, ?_, ?_⟩
  · refine ⟨ev0 ++ [.defaultNew σ], σ + 1, ?_⟩
    simp [TypeErasedObject.StoreObject, hev0, allocObject_noHooks]
  · intro hooks σ2
    exact copyCtor_noncopyable hooks σ2 a v hv
  · exact copyAssign_noncopyable σ a dest v hv
  · intro fp tid destF hcond
    simp [TypeErasedFunction.assignCopy, if_pos hcond,
      copyAssign_noncopyable σ a destF.object v hv]
  · intro hooks σ2 fp tid
    simp [TypeErasedFunction.copyCtor, copyCtor_noncopyable hooks σ2 a v hv]
  · rfl
  · refine ⟨ev1, ?_⟩
    simp [TypeErasedObject.moveAssign, hev1, TypeErasedObject.hasStoredObject,
      StoreState.isStored, moveOpRun]

/-- Witness for C7: a concrete non-copyable value — copying the owning
cell raises NonCopyableObject while moving it succeeds. -/
theorem C7_noncopyable_guard_witness :
    TypeErasedObject.copyCtor noHooks 0 ⟨some 5, .uniq ⟨false, 4, 4, 99⟩ 5⟩ =
      .error .nonCopyableObject ∧
    TypeErasedObject.moveCtor ⟨some 5, .uniq ⟨false, 4, 4, 99⟩ 5⟩ =
      (⟨some 5, .uniq ⟨false, 4, 4, 99⟩ 5⟩, emptyObject) ∧
    (∃ ev σ', TypeErasedObject.StoreObject noHooks 0 emptyObject
      ⟨false, 4, 4, 99⟩ = .ok (⟨some 0, .uniq ⟨false, 4, 4, 99⟩ 0⟩, ev, σ')) :=
  ⟨(C7_noncopyable_guard ⟨false, 4, 4, 99⟩ rfl 0 5 emptyObject
      emptyObject).2.1 noHooks 0,
   (C7_noncopyable_guard ⟨false, 4, 4, 99⟩ rfl 0 5 emptyObject
      emptyObject).2.2.2.2.2.1,
   (C7_noncopyable_guard ⟨false, 4, 4, 99⟩ rfl 0 5 emptyObject
      emptyObject).1⟩

/-- C8 counterexample: the claim says cell move assignment always
succeeds with no error, but when a custom deallocator that reports
failure is installed and the destination owns a value, move assignment
raises CustomAllocator while destroying the destination's previous
contents. -/
theorem C8_move_counterexample :
    TypeErasedObject.moveAssign ⟨none, some (fun _ _ _ _ => false, 0)⟩ false
      ⟨some 5, .uniq ⟨true, 1, 1, 0⟩ 5⟩ emptyObject =
      .error .customAllocator := rfl

/-- C8 amended: move construction always succeeds — no error, no deep
copy, no allocation — and leaves the source cell empty (object pointer
null, HasStoredObject false, all three operation pointers null); move
assignment does the same whenever destroying the destination's previous
contents succeeds (always the case under the default allocator or when
the destination owns nothing), but raises CustomAllocator when the
destination owns a value and the installed custom deallocator reports
failure; self-move-assignment is a no-op. -/
theorem C8_move_semantics_amended :
    ∀ (hooks : Hooks) (dest src : TypeErasedObject) (ev : List AllocEvent),
    destroyContents hooks dest.store = .ok ev →
    ((TypeErasedObject.moveCtor src).1.store = src.store ∧
     (TypeErasedObject.moveCtor src).2 = emptyObject ∧
     (TypeErasedObject.moveCtor src).2.objectPtr = none ∧
     (TypeErasedObject.moveCtor src).2.hasStoredObject = false ∧
     (TypeErasedObject.moveCtor src).2.opsAllNull = true) ∧
    (∃ d, TypeErasedObject.moveAssign hooks false dest src = .ok (d, emptyObject, ev) ∧
      d.store = src.store ∧ (∀ e ∈ ev, e.isAllocation = false)) ∧
    (∀ cell : TypeErasedObject,
      TypeErasedObject.moveAssign hooks true cell cell = .ok (cell, cell, [])) := by
  intro hooks dest src ev hev
  have hnoalloc := destroyContents_no_allocation hooks dest.store ev hev
  obtain ⟨sp, sst⟩ := src
  refine ⟨?_, ?_, fun cell => rfl⟩
  · cases sst <;>
      exact ⟨rfl, rfl, rfl, rfl, rfl⟩
  · cases sst with
    | noOps =>
      refine ⟨⟨sp, .noOps⟩, ?_, rfl, hnoalloc⟩
      simp [TypeErasedObject.moveAssign, hev, TypeErasedObject.hasStoredObject,
        StoreState.isStored]
    | uniq v a =>
      refine ⟨⟨some a, .uniq v a⟩, ?_, rfl, hnoalloc⟩
      simp [TypeErasedObject.moveAssign, hev, TypeErasedObject.hasStoredObject,
        StoreState.isStored, moveOpRun]
    | shared tgt =>
      refine ⟨⟨tgt, .shared tgt⟩, ?_, rfl, hnoalloc⟩
      simp [TypeErasedObject.moveAssign, hev, TypeErasedObject.hasStoredObject,
        StoreState.isStored, moveOpRun]

/-- Witness for the amended C8: moving an owning cell into an empty one
under the default allocator succeeds, keeps the same heap address, and
empties the source; self-move is a no-op. -/
theorem C8_move_semantics_amended_witness :
    (∃ d, TypeErasedObject.moveAssign noHooks false emptyObject
        ⟨some 9, .uniq ⟨true, 2, 2, 1⟩ 9⟩ = .ok (d, emptyObject, []) ∧
      d.store = StoreState.uniq ⟨true, 2, 2, 1⟩ 9 ∧
      (∀ e ∈ ([] : List AllocEvent), e.isAllocation = false)) ∧
    TypeErasedObject.moveAssign noHooks true
      ⟨some 9, .uniq ⟨true, 2, 2, 1⟩ 9⟩ ⟨some 9, .uniq ⟨true, 2, 2, 1⟩ 9⟩ =
      .ok (⟨some 9, .uniq ⟨true, 2, 2, 1⟩ 9⟩, ⟨some 9, .uniq ⟨true, 2, 2, 1⟩ 9⟩, []) :=
  ⟨(C8_move_semantics_amended noHooks emptyObject
      ⟨some 9, .uniq ⟨true, 2, 2, 1⟩ 9⟩ [] rfl).2.1,
   (C8_move_semantics_amended noHooks emptyObject
      ⟨some 9, .uniq ⟨true, 2, 2, 1⟩ 9⟩ [] rfl).2.2
     ⟨some 9, .uniq ⟨true, 2, 2, 1⟩ 9⟩⟩

/-- C9: while a custom allocate/deallocate pair is installed, every
owned-value store and every owned-value copy allocates through the custom
allocate function (raising CustomAllocator if it returns null); every
destruction of an owned value deallocates through the deallocate slot's
contents current at destruction time (raising CustomAllocator if it
returns false); with no hook installed, plain new/delete are used. -/
theorem C9_allocator_routing :
    ∀ (al : AllocationFunc) (actx : Nat) (dl : Option (DeallocationFunc × Nat))
      (g : DeallocationFunc) (dctx σ : Nat) (c : TypeErasedObject) (v : Val)
      (a : Addr) (ev0 : List AllocEvent),
    (destroyContents ⟨some (al, actx), dl⟩ c.store = .ok ev0 →
      (al v.size v.align actx = none →
        TypeErasedObject.StoreObject ⟨some (al, actx), dl⟩ σ c v =
          .error .customAllocator) ∧
      (∀ adr, al v.size v.align actx = some adr →
        TypeErasedObject.StoreObject ⟨some (al, actx), dl⟩ σ c v =
          .ok (⟨some adr, .uniq v adr⟩, ev0 ++ [.customAlloc adr], σ))) ∧
    (v.copyable = true →
      (al v.size v.align actx = none →
        TypeErasedObject.copyCtor ⟨some (al, actx), dl⟩ σ ⟨some a, .uniq v a⟩ =
          .error .customAllocator) ∧
      (∀ adr, al v.size v.align actx = some adr →
        TypeErasedObject.copyCtor ⟨some (al, actx), dl⟩ σ ⟨some a, .uniq v a⟩ =
          .ok (⟨some adr, .uniq v adr⟩, [.customAlloc adr], σ))) ∧
    (destroyContents ⟨some (al, actx), some (g, dctx)⟩ (.uniq v a) =
      (if g a v.size v.align dctx then .ok [.customDealloc a]
       else .error .customAllocator)) ∧
    (destroyContents noHooks c.store = .ok ev0 →
      TypeErasedObject.StoreObject noHooks σ c v =
        .ok (⟨some σ, .uniq v σ⟩, ev0 ++ [.defaultNew σ], σ + 1)) ∧
    (destroyContents noHooks (.uniq v a) = .ok [.defaultDelete a]) := by
  intro al actx dl g dctx σ c v a ev0
  refine ⟨?_, ?_, rfl, ?_, rfl⟩
  · intro hev
    constructor
    · intro hal
      simp [TypeErasedObject.StoreObject, hev, allocObject, hal]
    · intro adr hal
      simp [TypeErasedObject.StoreObject, hev, allocObject, hal]
  · intro hcopy
    constructor
    · intro hal
      simp [TypeErasedObject.copyCtor, TypeErasedObject.hasStoredObject,
        StoreState.isStored, copyOpRun, hcopy, allocObject, hal]
    · intro adr hal
      simp [TypeErasedObject.copyCtor, TypeErasedObject.hasStoredObject,
        StoreState.isStored, copyOpRun, hcopy, allocObject, hal]
  · intro hev
    simp [TypeErasedObject.StoreObject, hev, allocObject_noHooks]

/-- Witness for C9: a concrete custom pair — the store goes through the
custom allocate function, and destruction through the custom deallocate
function. -/
theorem C9_allocator_routing_witness :
    TypeErasedObject.StoreObject
      ⟨some (fun _ _ _ => some 42, 0), some (fun _ _ _ _ => true, 0)⟩ 0
      emptyObject ⟨true, 1, 1, 0⟩ =
      .ok (⟨some 42, .uniq ⟨true, 1, 1, 0⟩ 42⟩, [.customAlloc 42], 0) ∧
    destroyContents
      ⟨some (fun _ _ _ => some 42, 0), some (fun _ _ _ _ => true, 0)⟩
      (.uniq ⟨true, 1, 1, 0⟩ 7) = .ok [.customDealloc 7] :=
  ⟨((C9_allocator_routing (fun _ _ _ => some 42) 0
      (some (fun _ _ _ _ => true, 0)) (fun _ _ _ _ => true) 0 0 emptyObject
      ⟨true, 1, 1, 0⟩ 7 []).1 rfl).2 42 rfl,
   (C9_allocator_routing (fun _ _ _ => some 42) 0
      (some (fun _ _ _ _ => true, 0)) (fun _ _ _ _ => true) 0 0 emptyObject
      ⟨true, 1, 1, 0⟩ 7 []).2.2.1⟩

end MagicFunc
